import Mathlib

/-!
# app-meteo: the `SearchBar` component

A shallow embedding of `src/components/SearchBar.jsx`: the condition-code
categorisation `getWeatherIconType`, the search routine `searchWeather`
(input guard, two fetches, status check, normalisation, error handler) and the
two submit handlers of the form.

Modelling conventions.
* A JavaScript string is a Lean `String`, read as its sequence of characters;
  one `Char` stands for one UTF-16 code unit, so the strings covered are those
  of the Basic Multilingual Plane.
* A JavaScript number is a `JSNumber`: NaN, an infinity, or a finite double
  given by its exact rational value (the two zeros are one value). The
  operators `*` and `/` round their exact result to the nearest binary64 value
  (`roundToDouble`); `Math.round` and the comparisons are exact.
* A payload is the record of the values the component reads from the parsed
  JSON. A leaf property that is present has the provider's type (a number, a
  string); one that is absent reads as `undefined`: for a number this is
  `JSNumber.nan`, which is what `Math.round`, `*`, `/` and the comparisons
  make of it, and for a string that is only stored it is `none`. A value on
  which a property read throws is `Body.illShaped`.
* `useState` setters are recorded as an ordered list of effects; the state
  after a call is the fold of these effects over the state before it.
* The platform functions `encodeURIComponent` and `toUpperCase`, and the build
  time constant `API_KEY`, are parameters (`Env`).
-/

namespace SearchBar

/-! ## Strings -/

/-- Code points removed by `String.prototype.trim`: ECMAScript `WhiteSpace`
(TAB, VT, FF, ZWNBSP and the Unicode category Zs) and `LineTerminator`. -/
def isTrimChar (c : Char) : Bool :=
  let n := c.toNat
  n == 0x09 || n == 0x0A || n == 0x0B || n == 0x0C || n == 0x0D || n == 0x20 ||
  n == 0xA0 || n == 0x1680 || (0x2000 ≤ n && n ≤ 0x200A) || n == 0x2028 ||
  n == 0x2029 || n == 0x202F || n == 0x205F || n == 0x3000 || n == 0xFEFF

/-- The method `s.trim()`: strip trim characters from both ends. -/
def trim (s : String) : String :=
  String.mk ((s.data.dropWhile isTrimChar).reverse.dropWhile isTrimChar).reverse

/-- Truthiness of a JavaScript string: every string but the empty one. -/
def truthy (s : String) : Bool := !s.data.isEmpty

/-- Substring search on character lists: `t` occurs in `s` at some offset. -/
def includesFrom : List Char → List Char → Bool
  | [], t => t.isEmpty
  | c :: cs, t => t.isPrefixOf (c :: cs) || includesFrom cs t

/-- The method `s.includes(t)`. -/
def includes (s t : String) : Bool := includesFrom s.data t.data

/-- The expression `s.split(" ")[0]`: the characters of `s` before its first
space, all of `s` when it has none. -/
def splitSpaceFirst (s : String) : String :=
  String.mk (s.data.takeWhile (fun c => c != ' '))

/-- The method `s.charAt(0)`: the first character as a string, empty for the
empty string. -/
def charAt0 (s : String) : String := String.mk (s.data.take 1)

/-- The method `s.slice(1)`: all characters after the first. -/
def slice1 (s : String) : String := String.mk (s.data.drop 1)

/-! ## Platform and configuration -/

/-- Platform functions and build-time configuration read by the component.
`upperChar c` is the upper-case mapping of one character, which may be several
characters long; `toUpperCase` maps every character of its argument through
it. -/
structure Env where
  API_KEY : String
  encodeURIComponent : String → String
  upperChar : Char → List Char

/-- The method `s.toUpperCase()` over the platform mapping. -/
def toUpperCase (env : Env) (s : String) : String :=
  String.mk (s.data.flatMap env.upperChar)

/-- An environment whose upper-case mapping is the ASCII one and whose URI
encoding is the identity, for evaluating examples. -/
def asciiEnv : Env :=
  { API_KEY := "k", encodeURIComponent := fun s => s, upperChar := fun c => [c.toUpper] }

/-- The constant `BASE_URL`. -/
def BASE_URL : String := "https://api.openweathermap.org/data/2.5"

/-- The template literal of the current-conditions request. -/
def weatherUrl (env : Env) (city : String) : String :=
  BASE_URL ++ "/weather?q=" ++ env.encodeURIComponent city ++ "&appid=" ++ env.API_KEY ++
    "&units=metric&lang=it"

/-- The template literal of the forecast request. -/
def forecastUrl (env : Env) (city : String) : String :=
  BASE_URL ++ "/forecast?q=" ++ env.encodeURIComponent city ++ "&appid=" ++ env.API_KEY ++
    "&units=metric&lang=it"

/-! ## Numbers -/

/-- A JavaScript number: NaN, the two infinities, or a finite double given by
its exact value. Positive and negative zero are both `fin 0`. -/
inductive JSNumber where
  | nan
  | posInf
  | negInf
  | fin (value : ℚ)
  deriving DecidableEq

/-- The nearest integer to a rational, a tie going to the even neighbour. -/
def roundHalfEven (x : ℚ) : Int :=
  if x - ⌊x⌋ < 1 / 2 then ⌊x⌋
  else if 1 / 2 < x - ⌊x⌋ then ⌊x⌋ + 1
  else if ⌊x⌋ % 2 = 0 then ⌊x⌋ else ⌊x⌋ + 1

/-- The number of halvings that bring `n` below 2, with `fuel` bounding the
recursion. -/
def log2Fuel : Nat → Nat → Nat
  | 0, _ => 0
  | fuel + 1, n => if n < 2 then 0 else log2Fuel fuel (n / 2) + 1

/-- The floor of the binary logarithm of a natural number (0 for 0). -/
def natLog2 (n : Nat) : Nat := log2Fuel n n

/-- The floor of the binary logarithm of a positive rational: the difference of
the logarithms of numerator and denominator, lowered by one when the power of
two it gives exceeds the rational. -/
def floorLog2 (a : ℚ) : Int :=
  if (2 : ℚ) ^ ((natLog2 a.num.natAbs : Int) - (natLog2 a.den : Int)) ≤ a then
    (natLog2 a.num.natAbs : Int) - (natLog2 a.den : Int)
  else (natLog2 a.num.natAbs : Int) - (natLog2 a.den : Int) - 1

/-- The exponent of the spacing of binary64 values at magnitude `a > 0`:
53 significant bits in the normal range, the fixed spacing `2 ^ (-1074)` in
the subnormal range. -/
def ulpExponent (a : ℚ) : Int := max (floorLog2 a - 52) (-1074)

/-- IEEE-754 binary64 rounding of an exact result, to nearest with ties to
even: the multiple of the local spacing nearest to `q`, an infinity once that
multiple reaches `2 ^ 1024`. It is also the value of a decimal literal. -/
def roundToDouble (q : ℚ) : JSNumber :=
  if q = 0 then .fin 0
  else if (2 : ℚ) ^ (1024 : Nat) ≤
      (roundHalfEven (|q| / (2 : ℚ) ^ ulpExponent |q|) : ℚ) * (2 : ℚ) ^ ulpExponent |q| then
    (if 0 < q then .posInf else .negInf)
  else if 0 < q then
    .fin ((roundHalfEven (|q| / (2 : ℚ) ^ ulpExponent |q|) : ℚ) * (2 : ℚ) ^ ulpExponent |q|)
  else
    .fin (-((roundHalfEven (|q| / (2 : ℚ) ^ ulpExponent |q|) : ℚ) * (2 : ℚ) ^ ulpExponent |q|))

/-- Unary minus. -/
def JSNumber.neg : JSNumber → JSNumber
  | .nan => .nan
  | .posInf => .negInf
  | .negInf => .posInf
  | .fin a => .fin (-a)

/-- The product of the finite value `q` and positive infinity: NaN for zero,
otherwise the infinity of the sign of `q`. -/
def infTimes (q : ℚ) : JSNumber :=
  if q = 0 then .nan else if 0 < q then .posInf else .negInf

/-- The operator `*` on numbers. -/
def JSNumber.mul : JSNumber → JSNumber → JSNumber
  | .nan, _ => .nan
  | _, .nan => .nan
  | .fin a, .fin b => roundToDouble (a * b)
  | .fin a, .posInf => infTimes a
  | .fin a, .negInf => (infTimes a).neg
  | .posInf, .fin b => infTimes b
  | .negInf, .fin b => (infTimes b).neg
  | .posInf, .posInf => .posInf
  | .negInf, .negInf => .posInf
  | .posInf, .negInf => .negInf
  | .negInf, .posInf => .negInf

/-- The operator `/` on numbers; a zero divisor is taken as positive zero. -/
def JSNumber.div : JSNumber → JSNumber → JSNumber
  | .nan, _ => .nan
  | _, .nan => .nan
  | .fin a, .fin b => if b = 0 then infTimes a else roundToDouble (a / b)
  | .fin _, .posInf => .fin 0
  | .fin _, .negInf => .fin 0
  | .posInf, .fin b => if b < 0 then .negInf else .posInf
  | .negInf, .fin b => if b < 0 then .posInf else .negInf
  | .posInf, .posInf => .nan
  | .negInf, .negInf => .nan
  | .posInf, .negInf => .nan
  | .negInf, .posInf => .nan

/-- The operator `<` on numbers: false as soon as one side is NaN. -/
def JSNumber.lt : JSNumber → JSNumber → Bool
  | .nan, _ => false
  | _, .nan => false
  | .posInf, _ => false
  | _, .negInf => false
  | .negInf, _ => true
  | _, .posInf => true
  | .fin a, .fin b => decide (a < b)

/-- The operator `<=` on numbers: false as soon as one side is NaN. -/
def JSNumber.le : JSNumber → JSNumber → Bool
  | .nan, _ => false
  | _, .nan => false
  | .negInf, _ => true
  | _, .posInf => true
  | .posInf, _ => false
  | _, .negInf => false
  | .fin a, .fin b => decide (a ≤ b)

/-- The operator `>` on numbers. -/
def JSNumber.gt (a b : JSNumber) : Bool := b.lt a

/-- The operator `>=` on numbers. -/
def JSNumber.ge (a b : JSNumber) : Bool := b.le a

/-- The operator `===` on numbers: NaN equals nothing. -/
def JSNumber.strictEq : JSNumber → JSNumber → Bool
  | .posInf, .posInf => true
  | .negInf, .negInf => true
  | .fin a, .fin b => decide (a = b)
  | _, _ => false

/-- The function `Math.round`: the nearest integer, a tie going towards
positive infinity; NaN and the infinities are returned as they are. -/
def mathRound : JSNumber → JSNumber
  | .nan => .nan
  | .posInf => .posInf
  | .negInf => .negInf
  | .fin x => .fin (⌊x + 1 / 2⌋ : Int)

/-! ## Condition codes -/

/-- The function `getWeatherIconType(weatherCode, isDay = true)`: the chain of
early returns of the source, in source order. -/
def getWeatherIconType (weatherCode : JSNumber) (isDay : Bool := true) : String :=
  if weatherCode.ge (.fin 200) && weatherCode.lt (.fin 300) then "stormy"
  else if weatherCode.ge (.fin 300) && weatherCode.lt (.fin 400) then "drizzle"
  else if weatherCode.ge (.fin 500) && weatherCode.lt (.fin 600) then "rainy"
  else if weatherCode.ge (.fin 600) && weatherCode.lt (.fin 700) then "snowy"
  else if weatherCode.ge (.fin 700) && weatherCode.lt (.fin 800) then "cloudy"
  else if weatherCode.strictEq (.fin 800) then "sunny"
  else if weatherCode.gt (.fin 800) then "cloudy"
  else "sunny"

/-! ## Payloads -/

/-- The element `weather[0]` of a forecast entry: its `description` is only
stored, so it may be absent. -/
structure ForecastCond where
  id : JSNumber
  description : Option String

/-- The object `main` of a forecast entry (the field read by the component). -/
structure ForecastMain where
  temp : JSNumber

/-- One entry of `forecastData.list`, with the properties the component reads.
`weather0` is `weather[0]`. An entry that the filter drops is never read past
`dt_txt`, so its other fields are immaterial. -/
structure RawForecastEntry where
  dt_txt : String
  main : ForecastMain
  weather0 : ForecastCond

/-- The element `weather[0]` of the current-conditions payload: `charAt` is
called on its `description`, which is therefore a string. -/
structure CurrentCond where
  id : JSNumber
  description : String

/-- The object `main` of the current-conditions payload. -/
structure CurrentMain where
  temp : JSNumber
  feels_like : JSNumber
  temp_min : JSNumber
  temp_max : JSNumber
  humidity : JSNumber
  pressure : JSNumber

/-- The object `sys` of the current-conditions payload. -/
structure CurrentSys where
  country : Option String

/-- The object `wind` of the current-conditions payload. -/
structure CurrentWind where
  speed : JSNumber

/-- The current-conditions payload (`weatherResponse`), with the properties the
component reads; `weather0` is `weather[0]`. -/
structure RawCurrent where
  name : Option String
  sys : CurrentSys
  main : CurrentMain
  weather0 : CurrentCond
  wind : CurrentWind
  visibility : JSNumber

/-- One element of `dailyForecasts`. -/
structure DailyForecast where
  date : String
  temp : JSNumber
  icon : String
  description : Option String
  deriving DecidableEq

/-- The object `formattedData` stored by `setWeatherData`. In `humidity` and
`pressure`, which are stored as read, `nan` stands for `undefined`. -/
structure NormalizedWeather where
  city : Option String
  country : Option String
  temperature : JSNumber
  description : String
  humidity : JSNumber
  windSpeed : JSNumber
  visibility : JSNumber
  pressure : JSNumber
  icon : String
  feelsLike : JSNumber
  tempMin : JSNumber
  tempMax : JSNumber
  forecast : List DailyForecast
  deriving DecidableEq

/-! ## Network -/

/-- What `await response.json()` and the property reads of lines 74-101 do
with a body:
`syntaxError msg`: the body is not JSON and `json()` rejects with that message;
`illShaped msg`: `json()` resolves to a value on which a property read throws a
`TypeError` with that message: `list` is not an array, an entry has no string
`dt_txt`, or a kept entry or the current payload has no `main`, `sys`, `wind`
or `weather[0]`, or no string `weather[0].description` in the current payload;
`wellShaped v`: `json()` resolves to a value on which no read throws; `v` holds
the values read, absent leaves included. -/
inductive Body (α : Type) where
  | syntaxError (msg : String)
  | illShaped (msg : String)
  | wellShaped (value : α)

/-- A resolved `fetch`: the fields `ok` and `status` and the body. -/
structure Response (α : Type) where
  ok : Bool
  status : Nat
  body : Body α

/-- The settlement of one `await fetch(url)`: a rejection carrying the message
of the thrown error (transport failure), or a response. -/
inductive FetchOutcome (α : Type) where
  | rejected (msg : String)
  | resolved (response : Response α)

/-- The outcomes the network gives to the two requests of one search. The
forecast payload is its property `list`. -/
structure Network where
  current : FetchOutcome RawCurrent
  forecast : FetchOutcome (List RawForecastEntry)

/-! ## Component state and effects -/

/-- The four `useState` cells of the component. -/
structure State where
  city : String
  weatherData : Option NormalizedWeather
  loading : Bool
  error : String
  deriving DecidableEq

/-- An observable action of `searchWeather`: a state setter, a request sent by
`fetch`, or a line written by `console.error`. -/
inductive Effect where
  | setError (msg : String)
  | setLoading (b : Bool)
  | setWeatherData (d : Option NormalizedWeather)
  | fetch (url : String)
  | consoleError (msg : String)
  deriving DecidableEq

/-- The state after one effect. -/
def Effect.apply (s : State) : Effect → State
  | .setError msg => { s with error := msg }
  | .setLoading b => { s with loading := b }
  | .setWeatherData d => { s with weatherData := d }
  | .fetch _ => s
  | .consoleError _ => s

/-- The URLs of the requests among a list of effects, in order. -/
def fetched : List Effect → List String
  | [] => []
  | .fetch url :: es => url :: fetched es
  | _ :: es => fetched es

/-- One call of the async function `searchWeather`: its effects in program
order, and how the returned promise settles (`rejected = some msg` when an
error escapes the function). -/
structure Run where
  effects : List Effect
  rejected : Option String
  deriving DecidableEq

/-- The component state once all effects of a run are applied. -/
def Run.finalState (r : Run) (s : State) : State := r.effects.foldl Effect.apply s

/-! ## The search -/

/-- Lines 74-81: `forecastData.list.filter(...).map(...)`. -/
def dailyForecasts (list : List RawForecastEntry) : List DailyForecast :=
  (list.filter (fun entry => includes entry.dt_txt "12:00:00")).map (fun entry =>
    { date := splitSpaceFirst entry.dt_txt
      temp := mathRound entry.main.temp
      icon := getWeatherIconType entry.weather0.id
      description := entry.weather0.description })

/-- Lines 89-91: `description.charAt(0).toUpperCase() + description.slice(1)`. -/
def capitalize (env : Env) (description : String) : String :=
  toUpperCase env (charAt0 description) ++ slice1 description

/-- Lines 85-101: the object literal `formattedData`. The literal `3.6` is the
double nearest to it, the literal `1000` is exact. -/
def formattedData (env : Env) (weatherResponse : RawCurrent)
    (dailyForecasts : List DailyForecast) : NormalizedWeather :=
  { city := weatherResponse.name
    country := weatherResponse.sys.country
    temperature := mathRound weatherResponse.main.temp
    description := capitalize env weatherResponse.weather0.description
    humidity := weatherResponse.main.humidity
    windSpeed := mathRound (weatherResponse.wind.speed.mul (roundToDouble 3.6))
    visibility := mathRound (weatherResponse.visibility.div (.fin 1000))
    pressure := weatherResponse.main.pressure
    icon := getWeatherIconType weatherResponse.weather0.id
    feelsLike := mathRound weatherResponse.main.feels_like
    tempMin := mathRound weatherResponse.main.temp_min
    tempMax := mathRound weatherResponse.main.temp_max
    forecast := dailyForecasts }

/-- Lines 60-70: the status check on the current-conditions response; `none`
when the response is ok, otherwise the message of the error thrown. -/
def statusError (geoResponse : Response RawCurrent) : Option String :=
  if !geoResponse.ok then
    if geoResponse.status = 404 then
      some "City not found. Check the name and try again."
    else if geoResponse.status = 401 then
      some "API error: Invalid API key. Please enter your OpenWeatherMap API key."
    else
      some "Error retrieving weather data."
  else none

/-- Lines 60-101, once both fetches have resolved: status check, the two
`json()` calls in source order, then `dailyForecasts` and `formattedData`.
`Except.error msg` is an error thrown with message `msg`. -/
def normalize (env : Env) (geoResponse : Response RawCurrent)
    (forecastRes : Response (List RawForecastEntry)) : Except String NormalizedWeather :=
  match statusError geoResponse with
  | some msg => .error msg
  | none =>
    match geoResponse.body with
    | .syntaxError msg => .error msg
    | geoBody =>
      match forecastRes.body with
      | .syntaxError msg => .error msg
      | .illShaped msg => .error msg
      | .wellShaped list =>
        match geoBody with
        | .wellShaped weatherResponse =>
          .ok (formattedData env weatherResponse (dailyForecasts list))
        | .illShaped msg => .error msg
        | .syntaxError msg => .error msg

/-- Lines 46-101: the body of the `try` block up to `formattedData`. The
second `await fetch` is reached only when the first has resolved. -/
def tryBlock (env : Env) (net : Network) (city : String) :
    List Effect × Except String NormalizedWeather :=
  match net.current with
  | .rejected msg => ([.fetch (weatherUrl env city)], .error msg)
  | .resolved geoResponse =>
    match net.forecast with
    | .rejected msg =>
      ([.fetch (weatherUrl env city), .fetch (forecastUrl env city)], .error msg)
    | .resolved forecastRes =>
      ([.fetch (weatherUrl env city), .fetch (forecastUrl env city)],
        normalize env geoResponse forecastRes)

/-- Lines 103-108: the end of the `try` block on success, the `catch` block on
a thrown error; `err.message || "..."` falls back on a falsy (empty) message. -/
def settle : Except String NormalizedWeather → List Effect
  | .ok data => [.setWeatherData (some data), .setError ""]
  | .error msg =>
    [.consoleError msg,
     .setError (if truthy msg then msg else "Error retrieving weather data."),
     .setWeatherData none]

/-- The argument a caller passes to `searchWeather`: a string, or the click
event object that React hands to an `onClick` handler. -/
inductive Arg where
  | str (city : String)
  | event

/-- Lines 38-112: `searchWeather`. On an event object `city.trim` is undefined
and calling it throws before the `try` block, so the promise rejects. -/
def searchWeather (env : Env) (net : Network) : Arg → Run
  | .event => { effects := [], rejected := some "city.trim is not a function" }
  | .str city =>
    if !truthy (trim city) then
      { effects := [.setError "Please enter a city name"], rejected := none }
    else
      let body := tryBlock env net city
      { effects := [.setLoading true, .setError ""] ++ body.1 ++ settle body.2 ++
          [.setLoading false]
        rejected := none }

/-- Lines 114-117: `handleSubmit`; `e.preventDefault()` touches no component
state. -/
def handleSubmit (env : Env) (net : Network) (s : State) : Run :=
  searchWeather env net (.str s.city)

/-- Line 156: `onKeyPress` of the input; `none` when no handler body runs. -/
def onKeyPress (env : Env) (net : Network) (key : String) (s : State) : Option Run :=
  if key = "Enter" then some (handleSubmit env net s) else none

/-- Lines 162-163: `onClick={searchWeather}` of the button, which React calls
with the click event; a disabled button (`loading`) fires no click. -/
def onClick (env : Env) (net : Network) (s : State) : Option Run :=
  if s.loading then none else some (searchWeather env net .event)

/-! ## The provider's timestamp format -/

/-- The provider's timestamp form `YYYY-MM-DD HH:MM:SS`: nineteen characters,
digits separated by two hyphens, one space and two colons. -/
def isProviderTimestamp (s : String) : Bool :=
  match s.data with
  | [y1, y2, y3, y4, h1, m1, m2, h2, d1, d2, sp, a1, a2, c1, b1, b2, c2, e1, e2] =>
    y1.isDigit && y2.isDigit && y3.isDigit && y4.isDigit && h1 == '-' &&
    m1.isDigit && m2.isDigit && h2 == '-' && d1.isDigit && d2.isDigit && sp == ' ' &&
    a1.isDigit && a2.isDigit && c1 == ':' && b1.isDigit && b2.isDigit && c2 == ':' &&
    e1.isDigit && e2.isDigit
  | _ => false

/-- The calendar date of a timestamp: its first ten characters. -/
def datePart (s : String) : String := String.mk (s.data.take 10)

/-- The time of day of a timestamp: the characters after the date and the
space. -/
def timePart (s : String) : String := String.mk (s.data.drop 11)

/-! ## Example inputs -/

/-- The component's initial state. -/
def idle : State := { city := "", weatherData := none, loading := false, error := "" }

/-- The current-conditions payload of the Milano scenario; the decimal
fields are the doubles nearest to them. -/
def milanoCurrent : RawCurrent :=
  { name := some "Milano"
    sys := { country := some "IT" }
    main := { temp := roundToDouble 22.4, feels_like := roundToDouble 22.4,
              temp_min := .fin 21, temp_max := .fin 24,
              humidity := .fin 55, pressure := .fin 1015 }
    weather0 := { id := .fin 800, description := "cielo sereno" }
    wind := { speed := roundToDouble 3.2 }
    visibility := .fin 10000 }

/-- The double written `0.41666666666666663`, just below `5 / 12`. -/
def speedBelowTie : ℚ := 3752999689475413 / 2 ^ 53

/-- The Milano payload with the wind speed `0.41666666666666663` and the
visibility `9007199254740993024`, both finite doubles. -/
def tieCurrent : RawCurrent :=
  { milanoCurrent with
    wind := { speed := .fin speedBelowTie }
    visibility := .fin 9007199254740993024 }

/-- A forecast list of fifteen entries, five days of three slots each, of which
five are at 12:00:00. -/
def forecast15 : List RawForecastEntry :=
  [ { dt_txt := "2024-05-01 09:00:00", main := { temp := .fin 18.0 },
        weather0 := { id := .fin 800, description := some "cielo sereno" } },
    { dt_txt := "2024-05-01 12:00:00", main := { temp := .fin 18.25 },
        weather0 := { id := .fin 800, description := some "cielo sereno" } },
    { dt_txt := "2024-05-01 15:00:00", main := { temp := .fin 18.5 },
        weather0 := { id := .fin 800, description := some "cielo sereno" } },
    { dt_txt := "2024-05-02 09:00:00", main := { temp := .fin 18.75 },
        weather0 := { id := .fin 801, description := some "poche nuvole" } },
    { dt_txt := "2024-05-02 12:00:00", main := { temp := .fin 19.0 },
        weather0 := { id := .fin 801, description := some "poche nuvole" } },
    { dt_txt := "2024-05-02 15:00:00", main := { temp := .fin 19.25 },
        weather0 := { id := .fin 801, description := some "poche nuvole" } },
    { dt_txt := "2024-05-03 09:00:00", main := { temp := .fin 19.5 },
        weather0 := { id := .fin 500, description := some "pioggia leggera" } },
    { dt_txt := "2024-05-03 12:00:00", main := { temp := .fin 19.75 },
        weather0 := { id := .fin 500, description := some "pioggia leggera" } },
    { dt_txt := "2024-05-03 15:00:00", main := { temp := .fin 20.0 },
        weather0 := { id := .fin 500, description := some "pioggia leggera" } },
    { dt_txt := "2024-05-04 09:00:00", main := { temp := .fin 20.25 },
        weather0 := { id := .fin 600, description := some "neve" } },
    { dt_txt := "2024-05-04 12:00:00", main := { temp := .fin 20.5 },
        weather0 := { id := .fin 600, description := some "neve" } },
    { dt_txt := "2024-05-04 15:00:00", main := { temp := .fin 20.75 },
        weather0 := { id := .fin 600, description := some "neve" } },
    { dt_txt := "2024-05-05 09:00:00", main := { temp := .fin 21.0 },
        weather0 := { id := .fin 200, description := some "temporale" } },
    { dt_txt := "2024-05-05 12:00:00", main := { temp := .fin 21.25 },
        weather0 := { id := .fin 200, description := some "temporale" } },
    { dt_txt := "2024-05-05 15:00:00", main := { temp := .fin 21.5 },
        weather0 := { id := .fin 200, description := some "temporale" } } ]

/-- A network on which both requests succeed with the example payloads. -/
def okNetwork : Network :=
  { current := .resolved { ok := true, status := 200, body := .wellShaped milanoCurrent }
    forecast := .resolved { ok := true, status := 200, body := .wellShaped forecast15 } }

/-- A network on which the current-conditions request fails in transport. -/
def offlineNetwork : Network :=
  { current := .rejected "Failed to fetch"
    forecast := .resolved { ok := true, status := 200, body := .wellShaped forecast15 } }

/-- A network answering 404 to the current-conditions request and an error body
to the forecast request. -/
def notFoundNetwork : Network :=
  { current := .resolved { ok := false, status := 404, body := .illShaped "no main" }
    forecast := .resolved { ok := false, status := 404, body := .illShaped "no list" } }

/-- The idle state once the user has typed Milano in the input. -/
def typedMilano : State :=
  { city := "Milano", weatherData := none, loading := false, error := "" }

/-- A state displaying the weather of a previous successful search. -/
def shown : State :=
  { city := "Milano"
    weatherData := some (formattedData asciiEnv milanoCurrent (dailyForecasts forecast15))
    loading := false
    error := "" }

/-! ## Auxiliary facts -/

theorem dropWhile_all_nil {α : Type} (p : α → Bool) (l : List α) (h : ∀ a ∈ l, p a = true) :
    l.dropWhile p = [] := by
  induction l with
  | nil => rfl
  | cons a l ih =>
    have ha : p a = true := h a (List.mem_cons_self a l)
    simp only [List.dropWhile_cons, ha, if_true]
    exact ih (fun b hb => h b (List.mem_cons_of_mem a hb))

theorem trim_blank (s : String) (h : ∀ c ∈ s.data, isTrimChar c = true) : trim s = "" := by
  unfold trim
  rw [dropWhile_all_nil isTrimChar s.data h]
  rfl

theorem searchWeather_blank (env : Env) (net : Network) (city : String)
    (h : ∀ c ∈ city.data, isTrimChar c = true) :
    searchWeather env net (.str city) =
      { effects := [.setError "Please enter a city name"], rejected := none } := by
  simp only [searchWeather]
  rw [trim_blank city h]
  rfl

theorem searchWeather_effects (env : Env) (net : Network) (city : String)
    (h : truthy (trim city) = true) :
    searchWeather env net (.str city) =
      { effects := [Effect.setLoading true, Effect.setError ""] ++ (tryBlock env net city).1 ++
          settle (tryBlock env net city).2 ++ [Effect.setLoading false]
        rejected := none } := by
  simp [searchWeather, h]

theorem foldl_tryBlock (env : Env) (net : Network) (city : String) (s : State) :
    (tryBlock env net city).1.foldl Effect.apply s = s := by
  unfold tryBlock
  cases net.current with
  | rejected msg => rfl
  | resolved r =>
    cases net.forecast with
    | rejected msg => rfl
    | resolved r2 => rfl

theorem finalState_search (env : Env) (net : Network) (city : String) (s : State)
    (h : truthy (trim city) = true) :
    (searchWeather env net (.str city)).finalState s =
      match (tryBlock env net city).2 with
      | .ok data => { city := s.city, weatherData := some data, loading := false, error := "" }
      | .error msg =>
        { city := s.city, weatherData := none, loading := false,
          error := if truthy msg then msg else "Error retrieving weather data." } := by
  rw [searchWeather_effects env net city h]
  simp only [Run.finalState, List.foldl_append, foldl_tryBlock]
  cases (tryBlock env net city).2 with
  | ok data => rfl
  | error msg => rfl

theorem statusError_not_ok (r : Response RawCurrent) (h : r.ok = false) :
    statusError r = some
      (if r.status = 404 then "City not found. Check the name and try again."
       else if r.status = 401 then
         "API error: Invalid API key. Please enter your OpenWeatherMap API key."
       else "Error retrieving weather data.") := by
  unfold statusError
  rw [h]
  split_ifs <;> first | rfl | (exfalso; simp_all)

theorem statusError_ok (r : Response RawCurrent) (h : r.ok = true) : statusError r = none := by
  unfold statusError
  rw [h]
  rfl

theorem includesFrom_iff (s t : List Char) : includesFrom s t = true ↔ t <:+: s := by
  induction s with
  | nil =>
    cases t with
    | nil => simp [includesFrom]
    | cons a t => simp [includesFrom]
  | cons c cs ih =>
    simp only [includesFrom, Bool.or_eq_true, List.isPrefixOf_iff_prefix, ih]
    exact List.infix_cons_iff.symm

theorem digit_ne_colon (c : Char) (h : c.isDigit = true) : (c == ':') = false := by
  rcases c with ⟨v, hv⟩
  simp only [Char.isDigit, Bool.and_eq_true, decide_eq_true_eq] at h
  simp only [beq_eq_false_iff_ne, ne_eq]
  intro hc
  cases hc
  revert h
  decide

theorem digit_ne_space (c : Char) (h : c.isDigit = true) : (c != ' ') = true := by
  rcases c with ⟨v, hv⟩
  simp only [Char.isDigit, Bool.and_eq_true, decide_eq_true_eq] at h
  simp only [bne_iff_ne, ne_eq]
  intro hc
  cases hc
  revert h
  decide

theorem timestamp_shape (s : String) (h : isProviderTimestamp s = true) :
    includes s "12:00:00" = decide (timePart s = "12:00:00") ∧
    splitSpaceFirst s = datePart s ∧
    s = datePart s ++ " " ++ timePart s := by
  unfold isProviderTimestamp at h
  split at h
  · rename_i y1 y2 y3 y4 h1 m1 m2 h2 d1 d2 sp a1 a2 c1 b1 b2 c2 e1 e2 heq
    simp only [Bool.and_eq_true, beq_iff_eq] at h
    obtain ⟨⟨⟨⟨⟨⟨⟨⟨⟨⟨⟨⟨⟨⟨⟨⟨⟨⟨hy1, hy2⟩, hy3⟩, hy4⟩, hh1⟩, hm1⟩, hm2⟩, hh2⟩, hd1⟩, hd2⟩, hsp⟩,
      ha1⟩, ha2⟩, hc1⟩, hb1⟩, hb2⟩, hc2⟩, he1⟩, he2⟩ := h
    subst hh1 hh2 hsp hc1 hc2
    have k1 := digit_ne_colon _ hy1
    have k2 := digit_ne_colon _ hy2
    have k3 := digit_ne_colon _ hy3
    have k4 := digit_ne_colon _ hy4
    have k5 := digit_ne_colon _ hm1
    have k6 := digit_ne_colon _ hm2
    have k7 := digit_ne_colon _ hd1
    have k8 := digit_ne_colon _ hd2
    have k9 := digit_ne_colon _ ha1
    have k10 := digit_ne_colon _ ha2
    have n1 := digit_ne_space _ hy1
    have n2 := digit_ne_space _ hy2
    have n3 := digit_ne_space _ hy3
    have n4 := digit_ne_space _ hy4
    have n5 := digit_ne_space _ hm1
    have n6 := digit_ne_space _ hm2
    have n7 := digit_ne_space _ hd1
    have n8 := digit_ne_space _ hd2
    have hnoon : ("12:00:00" : String).data = ['1', '2', ':', '0', '0', ':', '0', '0'] := rfl
    refine ⟨?_, ?_, ?_⟩
    · have hR : (timePart s = "12:00:00") ↔
          (a1 = '1' ∧ a2 = '2' ∧ b1 = '0' ∧ b2 = '0' ∧ e1 = '0' ∧ e2 = '0') := by
        rw [String.ext_iff, hnoon]
        simp [timePart, heq]
      simp only [includes, heq, hnoon, hR]
      have hflip : ∀ x y : Char, (x == y) = decide (y = x) := by
        intro x y
        by_cases hxy : y = x
        · subst hxy; simp
        · have hyx : ¬ x = y := fun e => hxy e.symm
          simp [hxy, hyx]
      simp [includesFrom, List.isPrefixOf, k1, k2, k3, k4, k5, k6, k7, k8, k9, k10]
      simp only [hflip]
    · rw [String.ext_iff]
      simp [splitSpaceFirst, datePart, heq, List.takeWhile, n1, n2, n3, n4, n5, n6, n7, n8]
    · rw [String.ext_iff]
      simp [datePart, timePart, heq]
  · exact absurd h (by simp)

theorem mathRound_fin (x : ℚ) : mathRound (.fin x) = .fin ((round x : Int) : ℚ) := by
  simp only [mathRound, round_eq]

theorem takeWhile_space_split (l : List Char) :
    ∃ rest, l = l.takeWhile (fun c => c != ' ') ++ rest ∧ (rest = [] ∨ ∃ r, rest = ' ' :: r) := by
  induction l with
  | nil => exact ⟨[], rfl, Or.inl rfl⟩
  | cons c cs ih =>
    by_cases hc : c = ' '
    · subst hc
      exact ⟨' ' :: cs, by simp [List.takeWhile], Or.inr ⟨cs, rfl⟩⟩
    · obtain ⟨rest, h1, h2⟩ := ih
      refine ⟨rest, ?_, h2⟩
      have : (c != ' ') = true := by simp [hc]
      simp only [List.takeWhile, this, List.cons_append]
      exact congrArg (List.cons c) h1

theorem splitSpaceFirst_no_space (s : String) : ' ' ∉ (splitSpaceFirst s).data := by
  intro h
  have := List.mem_takeWhile_imp h
  simp at this

theorem tryBlock_success (env : Env) (net : Network) (city : String)
    (geoResponse : Response RawCurrent) (forecastRes : Response (List RawForecastEntry))
    (weatherResponse : RawCurrent) (list : List RawForecastEntry)
    (hcur : net.current = .resolved geoResponse) (hok : geoResponse.ok = true)
    (hbody : geoResponse.body = .wellShaped weatherResponse)
    (hfc : net.forecast = .resolved forecastRes)
    (hlist : forecastRes.body = .wellShaped list) :
    (tryBlock env net city).2 = .ok (formattedData env weatherResponse (dailyForecasts list)) := by
  simp only [tryBlock, hcur, hfc, normalize, statusError_ok geoResponse hok, hbody, hlist]

theorem finalState_success (env : Env) (net : Network) (city : String) (s : State)
    (geoResponse : Response RawCurrent) (forecastRes : Response (List RawForecastEntry))
    (weatherResponse : RawCurrent) (list : List RawForecastEntry)
    (hcity : truthy (trim city) = true)
    (hcur : net.current = .resolved geoResponse) (hok : geoResponse.ok = true)
    (hbody : geoResponse.body = .wellShaped weatherResponse)
    (hfc : net.forecast = .resolved forecastRes)
    (hlist : forecastRes.body = .wellShaped list) :
    ((searchWeather env net (.str city)).finalState s).weatherData =
      some (formattedData env weatherResponse (dailyForecasts list)) := by
  rw [finalState_search env net city s hcity,
    tryBlock_success env net city geoResponse forecastRes weatherResponse list hcur hok hbody
      hfc hlist]

theorem dailyForecasts_dates (list : List RawForecastEntry) :
    (dailyForecasts list).map (fun d => d.date) =
      ((list.filter (fun e => includes e.dt_txt "12:00:00")).map (fun e => e.dt_txt)).map
        splitSpaceFirst := by
  simp [dailyForecasts, List.map_map, Function.comp_def]

theorem dropWhile_all_iff {α : Type} (p : α → Bool) (l : List α) :
    (∀ a ∈ l.dropWhile p, p a = true) ↔ ∀ a ∈ l, p a = true := by
  induction l with
  | nil => simp
  | cons a l ih =>
    by_cases ha : p a = true
    · simp only [List.dropWhile_cons, ha, if_true, ih, List.mem_cons, forall_eq_or_imp, true_and]
    · simp only [List.dropWhile_cons, ha]
      rfl

theorem truthy_trim_false_iff (s : String) :
    truthy (trim s) = false ↔ ∀ c ∈ s.data, isTrimChar c = true := by
  constructor
  · intro h
    have hnil : ((s.data.dropWhile isTrimChar).reverse.dropWhile isTrimChar).reverse = [] := by
      simpa [truthy, trim] using h
    rw [List.reverse_eq_nil_iff, List.dropWhile_eq_nil_iff] at hnil
    apply (dropWhile_all_iff isTrimChar s.data).mp
    intro a ha
    exact hnil a (List.mem_reverse.mpr ha)
  · intro h
    rw [trim_blank s h]
    rfl

theorem truthy_trim_of_not_blank (s : String) (h : ¬ ∀ c ∈ s.data, isTrimChar c = true) :
    truthy (trim s) = true := by
  cases hb : truthy (trim s) with
  | true => rfl
  | false => exact absurd ((truthy_trim_false_iff s).mp hb) h

theorem settle_message_ne_empty (msg : String) :
    (if truthy msg = true then msg else "Error retrieving weather data.") ≠ "" := by
  split_ifs with h
  · intro hm
    rw [hm] at h
    exact absurd h (by decide)
  · decide

theorem finalState_thrown (env : Env) (net : Network) (city : String) (s : State) (msg : String)
    (hcity : truthy (trim city) = true) (hthrow : (tryBlock env net city).2 = .error msg) :
    ((searchWeather env net (.str city)).finalState s).weatherData = none ∧
    ((searchWeather env net (.str city)).finalState s).error =
      (if truthy msg = true then msg else "Error retrieving weather data.") ∧
    ((searchWeather env net (.str city)).finalState s).error ≠ "" := by
  rw [finalState_search env net city s hcity, hthrow]
  exact ⟨rfl, rfl, settle_message_ne_empty msg⟩

theorem normalize_syntaxError (env : Env) (r : Response RawCurrent)
    (r2 : Response (List RawForecastEntry)) (msg : String)
    (h : r.body = .syntaxError msg ∨ r2.body = .syntaxError msg) :
    ∃ thrown, normalize env r r2 = .error thrown := by
  unfold normalize
  cases statusError r with
  | some m => exact ⟨m, rfl⟩
  | none =>
    cases hb : r.body with
    | syntaxError m => exact ⟨m, rfl⟩
    | illShaped m =>
      cases hb2 : r2.body with
      | syntaxError m2 => exact ⟨m2, rfl⟩
      | illShaped m2 => exact ⟨m2, rfl⟩
      | wellShaped l => exact ⟨m, rfl⟩
    | wellShaped w =>
      cases hb2 : r2.body with
      | syntaxError m2 => exact ⟨m2, rfl⟩
      | illShaped m2 => exact ⟨m2, rfl⟩
      | wellShaped l =>
        rcases h with h | h
        · rw [hb] at h; cases h
        · rw [hb2] at h; cases h

theorem log2Fuel_spec (fuel : Nat) : ∀ n : Nat, 1 ≤ n → n ≤ fuel →
    2 ^ log2Fuel fuel n ≤ n ∧ n < 2 ^ (log2Fuel fuel n + 1) := by
  induction fuel with
  | zero => intro n h1 h2; omega
  | succ fuel ih =>
    intro n h1 h2
    unfold log2Fuel
    split_ifs with hn
    · have : n = 1 := by omega
      subst this
      simp
    · have hrec := ih (n / 2) (by omega) (by omega)
      obtain ⟨hlo, hhi⟩ := hrec
      rw [pow_succ] at hhi
      constructor
      · rw [pow_succ]; omega
      · rw [pow_succ, pow_succ]; omega

theorem natLog2_spec (n : Nat) (h : 1 ≤ n) :
    2 ^ natLog2 n ≤ n ∧ n < 2 ^ (natLog2 n + 1) :=
  log2Fuel_spec n n h (le_refl n)

theorem floorLog2_spec (a : ℚ) (ha : 0 < a) :
    (2 : ℚ) ^ floorLog2 a ≤ a ∧ a < (2 : ℚ) ^ (floorLog2 a + 1) := by
  have hnum : 0 < a.num := Rat.num_pos.mpr ha
  have hn1 : 1 ≤ a.num.natAbs := by omega
  have hd1 : 1 ≤ a.den := a.den_pos
  obtain ⟨hnlo, hnhi⟩ := natLog2_spec a.num.natAbs hn1
  obtain ⟨hdlo, hdhi⟩ := natLog2_spec a.den hd1
  have hD : (0 : ℚ) < (a.den : ℚ) := by exact_mod_cast a.den_pos
  have hN : ((a.num.natAbs : Nat) : ℚ) = a * a.den := by
    rw [Nat.cast_natAbs, abs_of_pos hnum]
    exact (Rat.mul_den_eq_num a).symm
  have hnlo' : (2 : ℚ) ^ natLog2 a.num.natAbs ≤ a * a.den := by
    rw [← hN]; exact_mod_cast hnlo
  have hnhi' : a * a.den < (2 : ℚ) ^ (natLog2 a.num.natAbs + 1) := by
    rw [← hN]; exact_mod_cast hnhi
  have hdlo' : (2 : ℚ) ^ natLog2 a.den ≤ a.den := by exact_mod_cast hdlo
  have hdhi' : (a.den : ℚ) < (2 : ℚ) ^ (natLog2 a.den + 1) := by exact_mod_cast hdhi
  have h2 : (2 : ℚ) ≠ 0 := by norm_num
  have hpd : (0 : ℚ) < (2 : ℚ) ^ natLog2 a.den := by positivity
  have hpn : (0 : ℚ) < (2 : ℚ) ^ natLog2 a.num.natAbs := by positivity
  -- the candidate exponent
  have hcand : (2 : ℚ) ^ ((natLog2 a.num.natAbs : Int) - (natLog2 a.den : Int)) =
      (2 : ℚ) ^ natLog2 a.num.natAbs / (2 : ℚ) ^ natLog2 a.den := by
    rw [zpow_sub₀ h2, zpow_natCast, zpow_natCast]
  have hupper : a < (2 : ℚ) ^ ((natLog2 a.num.natAbs : Int) - (natLog2 a.den : Int) + 1) := by
    rw [zpow_add₀ h2, hcand, zpow_one, div_mul_eq_mul_div, lt_div_iff₀ hpd]
    calc a * (2 : ℚ) ^ natLog2 a.den ≤ a * a.den :=
          mul_le_mul_of_nonneg_left hdlo' (le_of_lt ha)
      _ < (2 : ℚ) ^ (natLog2 a.num.natAbs + 1) := hnhi'
      _ = (2 : ℚ) ^ natLog2 a.num.natAbs * 2 := pow_succ _ _
  have hlower : (2 : ℚ) ^ ((natLog2 a.num.natAbs : Int) - (natLog2 a.den : Int) - 1) ≤ a := by
    rw [zpow_sub₀ h2, hcand, zpow_one, div_div, div_le_iff₀ (by positivity)]
    calc (2 : ℚ) ^ natLog2 a.num.natAbs ≤ a * a.den := hnlo'
      _ ≤ a * ((2 : ℚ) ^ (natLog2 a.den + 1)) :=
          mul_le_mul_of_nonneg_left (le_of_lt hdhi') (le_of_lt ha)
      _ = a * ((2 : ℚ) ^ natLog2 a.den * 2) := by rw [pow_succ]
  unfold floorLog2
  split_ifs with hc
  · exact ⟨hc, hupper⟩
  · refine ⟨hlower, ?_⟩
    rw [sub_add_cancel]
    exact lt_of_not_le hc

theorem roundHalfEven_error (x : ℚ) : |(roundHalfEven x : ℚ) - x| ≤ 1 / 2 := by
  have h1 : (⌊x⌋ : ℚ) ≤ x := Int.floor_le x
  have h2 : x < (⌊x⌋ : ℚ) + 1 := Int.lt_floor_add_one x
  unfold roundHalfEven
  rw [abs_le]
  split_ifs with ha hb hc
  · constructor <;> linarith
  · push_cast; constructor <;> linarith
  · push_neg at ha hb
    constructor <;> linarith
  · push_neg at ha hb
    push_cast; constructor <;> linarith

theorem roundToDouble_error (q r : ℚ) (h : roundToDouble q = .fin r) :
    |r - q| ≤ (2 : ℚ) ^ ulpExponent |q| / 2 := by
  have hp : (0 : ℚ) < (2 : ℚ) ^ ulpExponent |q| := by positivity
  have hm := roundHalfEven_error (|q| / (2 : ℚ) ^ ulpExponent |q|)
  have hM : abs ((roundHalfEven (|q| / (2 : ℚ) ^ ulpExponent |q|) : ℚ) *
      (2 : ℚ) ^ ulpExponent |q| - abs q) ≤ (2 : ℚ) ^ ulpExponent |q| / 2 := by
    have e : (roundHalfEven (|q| / (2 : ℚ) ^ ulpExponent |q|) : ℚ) * (2 : ℚ) ^ ulpExponent |q|
        - abs q = ((roundHalfEven (|q| / (2 : ℚ) ^ ulpExponent |q|) : ℚ) -
          |q| / (2 : ℚ) ^ ulpExponent |q|) * (2 : ℚ) ^ ulpExponent |q| := by
      field_simp
    rw [e, abs_mul, abs_of_pos hp]
    calc _ ≤ 1 / 2 * (2 : ℚ) ^ ulpExponent |q| := mul_le_mul_of_nonneg_right hm (le_of_lt hp)
      _ = (2 : ℚ) ^ ulpExponent |q| / 2 := by ring
  unfold roundToDouble at h
  by_cases h0 : q = 0
  · rw [if_pos h0] at h
    cases h
    subst h0
    simp only [sub_zero, abs_zero]
    positivity
  · rw [if_neg h0] at h
    by_cases hov : (2 : ℚ) ^ (1024 : Nat) ≤
        (roundHalfEven (|q| / (2 : ℚ) ^ ulpExponent |q|) : ℚ) * (2 : ℚ) ^ ulpExponent |q|
    · rw [if_pos hov] at h
      split_ifs at h
    · rw [if_neg hov] at h
      by_cases hpos : 0 < q
      · rw [if_pos hpos] at h
        cases h
        rw [abs_of_pos hpos] at hM ⊢
        exact hM
      · rw [if_neg hpos] at h
        cases h
        have hneg : q < 0 := lt_of_le_of_ne (not_lt.mp hpos) h0
        rw [abs_of_neg hneg] at hM ⊢
        rw [← abs_neg]
        have e2 : -(-(↑(roundHalfEven (-q / 2 ^ ulpExponent (-q))) *
            (2 : ℚ) ^ ulpExponent (-q)) - q)
            = ↑(roundHalfEven (-q / 2 ^ ulpExponent (-q))) * (2 : ℚ) ^ ulpExponent (-q) - -q := by
          ring
        rw [e2]
        exact hM

theorem roundToDouble_relative_error (q r : ℚ) (hnormal : (2 : ℚ) ^ (-1022 : Int) ≤ |q|)
    (h : roundToDouble q = .fin r) : |r - q| ≤ |q| / 2 ^ 53 := by
  have hq : 0 < |q| := lt_of_lt_of_le (by positivity) hnormal
  obtain ⟨hlo, hhi⟩ := floorLog2_spec |q| hq
  have hexp : (-1022 : Int) < floorLog2 |q| + 1 :=
    (zpow_lt_zpow_iff_right₀ (by norm_num : (1 : ℚ) < 2)).mp (lt_of_le_of_lt hnormal hhi)
  have hulp : ulpExponent |q| = floorLog2 |q| - 52 := by
    unfold ulpExponent
    exact max_eq_left (by omega)
  have herr := roundToDouble_error q r h
  rw [hulp, zpow_sub₀ (by norm_num : (2 : ℚ) ≠ 0)] at herr
  calc |r - q| ≤ (2 : ℚ) ^ floorLog2 |q| / (2 : ℚ) ^ (52 : Int) / 2 := herr
    _ ≤ |q| / (2 : ℚ) ^ (52 : Int) / 2 := by
        apply div_le_div_of_nonneg_right _ (by norm_num)
        exact div_le_div_of_nonneg_right hlo (by positivity)
    _ = |q| / 2 ^ 53 := by
        rw [div_div]
        norm_num

theorem div_thousand_below_tie :
    roundToDouble 1499.9999999999998 = .fin (6597069766655999 / 2 ^ 42) ∧
    (JSNumber.fin (6597069766655999 / 2 ^ 42)).div (.fin 1000) =
      .fin (6755399441055743 / 2 ^ 52) ∧
    mathRound ((JSNumber.fin (6597069766655999 / 2 ^ 42)).div (.fin 1000)) = .fin 1 := by
  decide!

theorem JSNumber.fin_ge_int (c n : Int) :
    (JSNumber.fin (c : ℚ)).ge (.fin (n : ℚ)) = decide (n ≤ c) := by
  simp [JSNumber.ge, JSNumber.le]

theorem JSNumber.fin_lt_int (c n : Int) :
    (JSNumber.fin (c : ℚ)).lt (.fin (n : ℚ)) = decide (c < n) := by
  simp [JSNumber.lt]

theorem JSNumber.fin_gt_int (c n : Int) :
    (JSNumber.fin (c : ℚ)).gt (.fin (n : ℚ)) = decide (n < c) := by
  simp [JSNumber.gt, JSNumber.lt]

theorem JSNumber.fin_strictEq_int (c n : Int) :
    (JSNumber.fin (c : ℚ)).strictEq (.fin (n : ℚ)) = decide (c = n) := by
  simp [JSNumber.strictEq]

theorem getWeatherIconType_int (c : Int) (isDay : Bool) :
    getWeatherIconType (.fin c) isDay =
      if 200 ≤ c ∧ c < 300 then "stormy"
      else if 300 ≤ c ∧ c < 400 then "drizzle"
      else if 500 ≤ c ∧ c < 600 then "rainy"
      else if 600 ≤ c ∧ c < 700 then "snowy"
      else if 700 ≤ c ∧ c < 800 then "cloudy"
      else if c = 800 then "sunny"
      else if 800 < c then "cloudy"
      else "sunny" := by
  have e200 : (200 : ℚ) = ((200 : Int) : ℚ) := by norm_num
  have e300 : (300 : ℚ) = ((300 : Int) : ℚ) := by norm_num
  have e400 : (400 : ℚ) = ((400 : Int) : ℚ) := by norm_num
  have e500 : (500 : ℚ) = ((500 : Int) : ℚ) := by norm_num
  have e600 : (600 : ℚ) = ((600 : Int) : ℚ) := by norm_num
  have e700 : (700 : ℚ) = ((700 : Int) : ℚ) := by norm_num
  have e800 : (800 : ℚ) = ((800 : Int) : ℚ) := by norm_num
  unfold getWeatherIconType
  rw [e200, e300, e400, e500, e600, e700, e800]
  simp only [JSNumber.fin_ge_int, JSNumber.fin_lt_int, JSNumber.fin_gt_int,
    JSNumber.fin_strictEq_int, Bool.and_eq_true, decide_eq_true_eq]

/-! ## The claims -/

/-- C1: for every integer code `c` the category returned by `getWeatherIconType`
is the one of the range table: stormy on [200,300), drizzle on [300,400), rainy
on [500,600), snowy on [600,700), cloudy on [700,800), sunny at 800, cloudy
above 800, and sunny on the codes of no range (below 200 and on [400,500)); the
boundary codes 199, 200, 299, 300, 799, 800, 801 give sunny, stormy, stormy,
drizzle, cloudy, sunny, cloudy; and the result is the same for both values of
`isDay`. -/
theorem getWeatherIconType_table (c : Int) (isDay : Bool) :
    (200 ≤ c ∧ c < 300 → getWeatherIconType (.fin c) isDay = "stormy") ∧
    (300 ≤ c ∧ c < 400 → getWeatherIconType (.fin c) isDay = "drizzle") ∧
    (500 ≤ c ∧ c < 600 → getWeatherIconType (.fin c) isDay = "rainy") ∧
    (600 ≤ c ∧ c < 700 → getWeatherIconType (.fin c) isDay = "snowy") ∧
    (700 ≤ c ∧ c < 800 → getWeatherIconType (.fin c) isDay = "cloudy") ∧
    (c = 800 → getWeatherIconType (.fin c) isDay = "sunny") ∧
    (c > 800 → getWeatherIconType (.fin c) isDay = "cloudy") ∧
    (c < 200 ∨ (400 ≤ c ∧ c < 500) → getWeatherIconType (.fin c) isDay = "sunny") ∧
    getWeatherIconType (.fin 199) isDay = "sunny" ∧
    getWeatherIconType (.fin 200) isDay = "stormy" ∧
    getWeatherIconType (.fin 299) isDay = "stormy" ∧
    getWeatherIconType (.fin 300) isDay = "drizzle" ∧
    getWeatherIconType (.fin 799) isDay = "cloudy" ∧
    getWeatherIconType (.fin 800) isDay = "sunny" ∧
    getWeatherIconType (.fin 801) isDay = "cloudy" ∧
    getWeatherIconType (.fin c) isDay = getWeatherIconType (.fin c) (!isDay) := by
  have hb : ∀ b : Bool, getWeatherIconType (.fin 199) b = "sunny" ∧
      getWeatherIconType (.fin 200) b = "stormy" ∧ getWeatherIconType (.fin 299) b = "stormy" ∧
      getWeatherIconType (.fin 300) b = "drizzle" ∧ getWeatherIconType (.fin 799) b = "cloudy" ∧
      getWeatherIconType (.fin 800) b = "sunny" ∧ getWeatherIconType (.fin 801) b = "cloudy" := by
    decide!
  obtain ⟨b1, b2, b3, b4, b5, b6, b7⟩ := hb isDay
  refine ⟨?_, ?_, ?_, ?_, ?_, ?_, ?_, ?_, b1, b2, b3, b4, b5, b6, b7, rfl⟩ <;>
  · intro h
    rw [getWeatherIconType_int]
    split_ifs <;> first | rfl | omega

/-- C2: when both fetches resolve and the current-conditions response is not
ok, then whatever the forecast response is, the search ends with `weatherData`
null and with the message fixed by the current-conditions status alone: the
city-not-found message for 404, the invalid-API-key message for 401 and the
generic retrieval message for every other status. -/
theorem searchWeather_not_ok (env : Env) (net : Network) (city : String) (s : State)
    (geoResponse : Response RawCurrent) (forecastRes : Response (List RawForecastEntry))
    (hcity : truthy (trim city) = true)
    (hcur : net.current = .resolved geoResponse) (hfc : net.forecast = .resolved forecastRes)
    (hok : geoResponse.ok = false) :
    ((searchWeather env net (.str city)).finalState s).weatherData = none ∧
    ((searchWeather env net (.str city)).finalState s).error =
      (if geoResponse.status = 404 then "City not found. Check the name and try again."
       else if geoResponse.status = 401 then
         "API error: Invalid API key. Please enter your OpenWeatherMap API key."
       else "Error retrieving weather data.") := by
  rw [finalState_search env net city s hcity]
  simp only [tryBlock, hcur, hfc, normalize, statusError_not_ok geoResponse hok]
  split_ifs <;> constructor <;> trivial

/-- Witness of C2: the city Milano on a network answering 404 to both requests. -/
theorem searchWeather_not_ok_witness :
    ((searchWeather asciiEnv notFoundNetwork (.str "Milano")).finalState shown).weatherData
        = none ∧
    ((searchWeather asciiEnv notFoundNetwork (.str "Milano")).finalState shown).error =
      (if (404 : Nat) = 404 then "City not found. Check the name and try again."
       else if (404 : Nat) = 401 then
         "API error: Invalid API key. Please enter your OpenWeatherMap API key."
       else "Error retrieving weather data.") :=
  searchWeather_not_ok asciiEnv notFoundNetwork "Milano" shown
    { ok := false, status := 404, body := .illShaped "no main" }
    { ok := false, status := 404, body := .illShaped "no list" } (by decide) rfl rfl rfl

/-- C3: for a city string that is empty or made of whitespace only,
`searchWeather` performs exactly one effect, setting the error to the
empty-input message: no request is sent by `fetch`, `setLoading` is never
called, so the loading flag is left as it was, and the promise resolves. -/
theorem searchWeather_empty_input (env : Env) (net : Network) (city : String) (s : State)
    (hblank : ∀ c ∈ city.data, isTrimChar c = true) :
    (searchWeather env net (.str city)).effects = [.setError "Please enter a city name"] ∧
    fetched (searchWeather env net (.str city)).effects = [] ∧
    (∀ b, Effect.setLoading b ∉ (searchWeather env net (.str city)).effects) ∧
    ((searchWeather env net (.str city)).finalState s).error = "Please enter a city name" ∧
    ((searchWeather env net (.str city)).finalState s).loading = s.loading ∧
    (searchWeather env net (.str city)).rejected = none := by
  rw [searchWeather_blank env net city hblank]
  refine ⟨rfl, rfl, ?_, rfl, rfl, rfl⟩
  intro b hb
  simp at hb

/-- Witness of C3: a city made of a space, a tab and a no-break space. -/
theorem searchWeather_empty_input_witness :
    (searchWeather asciiEnv okNetwork (.str " \t\u00A0")).effects =
      [.setError "Please enter a city name"] ∧
    fetched (searchWeather asciiEnv okNetwork (.str " \t\u00A0")).effects = [] ∧
    (∀ b, Effect.setLoading b ∉ (searchWeather asciiEnv okNetwork (.str " \t\u00A0")).effects) ∧
    ((searchWeather asciiEnv okNetwork (.str " \t\u00A0")).finalState idle).error =
      "Please enter a city name" ∧
    ((searchWeather asciiEnv okNetwork (.str " \t\u00A0")).finalState idle).loading =
      idle.loading ∧
    (searchWeather asciiEnv okNetwork (.str " \t\u00A0")).rejected = none :=
  searchWeather_empty_input asciiEnv okNetwork " \t\u00A0" idle (by decide)

/-- C4: in a search whose two responses are well-formed and whose
current-conditions status is ok, the forecast stored by `searchWeather` for the
forecast list `list` is the list of the entries of `list` whose `dt_txt`
contains "12:00:00", in their original order, each mapped to its date (the
characters of `dt_txt` before the first space), its rounded temperature, the
category of its condition code and its description unchanged; its length is the
number of entries of `list` that contain "12:00:00"; `Math.round` of a finite
number is its nearest integer. -/
theorem searchWeather_dailyForecasts (env : Env) (net : Network) (city : String) (s : State)
    (geoResponse : Response RawCurrent) (forecastRes : Response (List RawForecastEntry))
    (weatherResponse : RawCurrent) (list : List RawForecastEntry)
    (hcity : truthy (trim city) = true)
    (hcur : net.current = .resolved geoResponse) (hok : geoResponse.ok = true)
    (hbody : geoResponse.body = .wellShaped weatherResponse)
    (hfc : net.forecast = .resolved forecastRes)
    (hlist : forecastRes.body = .wellShaped list) :
    ∃ data, ((searchWeather env net (.str city)).finalState s).weatherData = some data ∧
      data.forecast =
        (list.filter (fun e => decide ("12:00:00".data <:+: e.dt_txt.data))).map (fun e =>
          { date := splitSpaceFirst e.dt_txt
            temp := mathRound e.main.temp
            icon := getWeatherIconType e.weather0.id
            description := e.weather0.description }) ∧
      data.forecast.length =
        list.countP (fun e => decide ("12:00:00".data <:+: e.dt_txt.data)) ∧
      (∀ e ∈ list, ' ' ∉ (splitSpaceFirst e.dt_txt).data ∧
        ∃ rest, e.dt_txt.data = (splitSpaceFirst e.dt_txt).data ++ rest ∧
          (rest = [] ∨ ∃ r, rest = ' ' :: r)) ∧
      ∀ x : ℚ, mathRound (.fin x) = .fin ((round x : Int) : ℚ) := by
  have hfilter : (fun e : RawForecastEntry => includes e.dt_txt "12:00:00") =
      (fun e => decide ("12:00:00".data <:+: e.dt_txt.data)) := by
    funext e
    rw [Bool.eq_iff_iff]
    simp only [includes, includesFrom_iff, decide_eq_true_eq]
  have hspec : dailyForecasts list =
      (list.filter (fun e => decide ("12:00:00".data <:+: e.dt_txt.data))).map (fun e =>
        { date := splitSpaceFirst e.dt_txt
          temp := mathRound e.main.temp
          icon := getWeatherIconType e.weather0.id
          description := e.weather0.description }) := by
    unfold dailyForecasts
    rw [hfilter]
  refine ⟨formattedData env weatherResponse (dailyForecasts list),
    finalState_success env net city s geoResponse forecastRes weatherResponse list hcity hcur
      hok hbody hfc hlist, hspec, ?_, ?_, mathRound_fin⟩
  · show (dailyForecasts list).length = _
    rw [hspec, List.length_map, List.countP_eq_length_filter]
  · intro e _
    exact ⟨splitSpaceFirst_no_space e.dt_txt, takeWhile_space_split e.dt_txt.data⟩

/-- Witness of C4: the search for Milano on the network answering with the
fifteen-entry forecast, five entries of which are at 12:00:00. -/
theorem searchWeather_dailyForecasts_witness :
    (forecast15.length = 15 ∧
      forecast15.countP (fun e => decide ("12:00:00".data <:+: e.dt_txt.data)) = 5) ∧
    ∃ data, ((searchWeather asciiEnv okNetwork (.str "Milano")).finalState idle).weatherData
        = some data ∧
      data.forecast =
        (forecast15.filter (fun e => decide ("12:00:00".data <:+: e.dt_txt.data))).map (fun e =>
          { date := splitSpaceFirst e.dt_txt
            temp := mathRound e.main.temp
            icon := getWeatherIconType e.weather0.id
            description := e.weather0.description }) ∧
      data.forecast.length =
        forecast15.countP (fun e => decide ("12:00:00".data <:+: e.dt_txt.data)) ∧
      (∀ e ∈ forecast15, ' ' ∉ (splitSpaceFirst e.dt_txt).data ∧
        ∃ rest, e.dt_txt.data = (splitSpaceFirst e.dt_txt).data ++ rest ∧
          (rest = [] ∨ ∃ r, rest = ' ' :: r)) ∧
      ∀ x : ℚ, mathRound (.fin x) = .fin ((round x : Int) : ℚ) :=
  ⟨by decide, searchWeather_dailyForecasts asciiEnv okNetwork "Milano" idle
    { ok := true, status := 200, body := .wellShaped milanoCurrent }
    { ok := true, status := 200, body := .wellShaped forecast15 }
    milanoCurrent forecast15 (by decide) rfl rfl rfl rfl rfl⟩

/-- C5, counterexample: the wind speed `0.41666666666666663` is a double; its
double product with 3.6 is exactly 1.5, so the stored wind speed is 2, while
the exact product is below 1.5 and rounds to 1. The visibility
`9007199254740993024` is a double; its double quotient by 1000 is
`9007199254740994`, while the exact quotient rounds to `9007199254740993`. -/
theorem windSpeed_not_exact_rounding :
    roundToDouble 0.41666666666666663 = .fin speedBelowTie ∧
    (JSNumber.fin speedBelowTie).mul (roundToDouble 3.6) = .fin (3 / 2) ∧
    (formattedData asciiEnv tieCurrent []).windSpeed = .fin 2 ∧
    round (speedBelowTie * 3.6) = 1 ∧
    (formattedData asciiEnv tieCurrent []).windSpeed ≠
      .fin ((round (speedBelowTie * 3.6) : Int) : ℚ) ∧
    roundToDouble 9007199254740993024 = .fin 9007199254740993024 ∧
    (formattedData asciiEnv tieCurrent []).visibility = .fin 9007199254740994 ∧
    round ((9007199254740993024 : ℚ) / 1000) = 9007199254740993 ∧
    (formattedData asciiEnv tieCurrent []).visibility ≠
      .fin ((round ((9007199254740993024 : ℚ) / 1000) : Int) : ℚ) := by
  decide!

/-- C5, amended: the four temperatures of the normalised value are `Math.round`
of the payload fields; the wind speed is `Math.round` of the double product of
`wind.speed` and the double 3.6, the visibility is `Math.round` of the double
quotient of `visibility` by 1000; `Math.round` of a finite number is its
nearest integer, within one half of it; a finite double product or quotient in
the normal range differs from the exact one by at most its `2 ^ 53`-th part;
wind 10 gives 36, visibility 10000 gives 10, and the payload with code 800,
temperature 22.4, wind 3.2 and visibility 10000 gives temperature 22, category
sunny, wind 12 and visibility 10. -/
theorem formattedData_rounding (env : Env) (w : RawCurrent) (fc : List DailyForecast) :
    (formattedData env w fc).windSpeed = mathRound (w.wind.speed.mul (roundToDouble 3.6)) ∧
    (formattedData env w fc).visibility = mathRound (w.visibility.div (.fin 1000)) ∧
    (formattedData env w fc).temperature = mathRound w.main.temp ∧
    (formattedData env w fc).feelsLike = mathRound w.main.feels_like ∧
    (formattedData env w fc).tempMin = mathRound w.main.temp_min ∧
    (formattedData env w fc).tempMax = mathRound w.main.temp_max ∧
    (∀ x : ℚ, mathRound (.fin x) = .fin ((round x : Int) : ℚ) ∧
      |x - ((round x : Int) : ℚ)| ≤ 1 / 2) ∧
    (∀ a b r : ℚ, (2 : ℚ) ^ (-1022 : Int) ≤ |a * b| →
      (JSNumber.fin a).mul (.fin b) = .fin r → |r - a * b| ≤ |a * b| / 2 ^ 53) ∧
    (∀ a b r : ℚ, b ≠ 0 → (2 : ℚ) ^ (-1022 : Int) ≤ |a / b| →
      (JSNumber.fin a).div (.fin b) = .fin r → |r - a / b| ≤ |a / b| / 2 ^ 53) ∧
    (w.wind.speed = .fin 10 → (formattedData env w fc).windSpeed = .fin 36) ∧
    (w.visibility = .fin 10000 → (formattedData env w fc).visibility = .fin 10) ∧
    (w.weather0.id = .fin 800 → w.main.temp = roundToDouble 22.4 →
      w.wind.speed = roundToDouble 3.2 → w.visibility = .fin 10000 →
      (formattedData env w fc).temperature = .fin 22 ∧
      (formattedData env w fc).icon = "sunny" ∧
      (formattedData env w fc).windSpeed = .fin 12 ∧
      (formattedData env w fc).visibility = .fin 10) := by
  refine ⟨rfl, rfl, rfl, rfl, rfl, rfl, ?_, ?_, ?_, ?_, ?_, ?_⟩
  · intro x
    exact ⟨mathRound_fin x, abs_sub_round x⟩
  · intro a b r hnormal hmul
    exact roundToDouble_relative_error (a * b) r hnormal hmul
  · intro a b r hb hnormal hdiv
    simp only [JSNumber.div, if_neg hb] at hdiv
    exact roundToDouble_relative_error (a / b) r hnormal hdiv
  · intro h
    simp only [formattedData, h]
    decide!
  · intro h
    simp only [formattedData, h]
    decide!
  · intro hid ht hw hv
    simp only [formattedData, hid, ht, hw, hv]
    decide!

/-- Witness of C5 (amended): the Milano payload. -/
theorem formattedData_rounding_witness :
    (formattedData asciiEnv milanoCurrent []).temperature = .fin 22 ∧
    (formattedData asciiEnv milanoCurrent []).icon = "sunny" ∧
    (formattedData asciiEnv milanoCurrent []).windSpeed = .fin 12 ∧
    (formattedData asciiEnv milanoCurrent []).visibility = .fin 10 :=
  (formattedData_rounding asciiEnv milanoCurrent []).2.2.2.2.2.2.2.2.2.2.2 rfl rfl rfl rfl

/-- C6: when the timestamps of a forecast list have the provider's form
`YYYY-MM-DD HH:MM:SS` and are pairwise distinct, no two entries of
`dailyForecasts` have the same date, and every output entry is the image of an
input entry of that calendar date whose time of day is exactly 12:00:00;
conversely every such input entry is kept. -/
theorem dailyForecasts_one_per_day (list : List RawForecastEntry)
    (hform : ∀ e ∈ list, isProviderTimestamp e.dt_txt = true)
    (hdistinct : (list.map (fun e => e.dt_txt)).Nodup) :
    ((dailyForecasts list).map (fun d => d.date)).Nodup ∧
    (∀ d ∈ dailyForecasts list, ∃ e ∈ list,
      timePart e.dt_txt = "12:00:00" ∧ d.date = datePart e.dt_txt ∧
      d.temp = mathRound e.main.temp ∧ d.icon = getWeatherIconType e.weather0.id ∧
      d.description = e.weather0.description) ∧
    (∀ e ∈ list, timePart e.dt_txt = "12:00:00" →
      datePart e.dt_txt ∈ (dailyForecasts list).map (fun d => d.date)) := by
  refine ⟨?_, ?_, ?_⟩
  · rw [dailyForecasts_dates]
    apply List.Nodup.map_on
    · intro x hx y hy hxy
      simp only [List.mem_map, List.mem_filter] at hx hy
      obtain ⟨ex, ⟨hexl, hexn⟩, rfl⟩ := hx
      obtain ⟨ey, ⟨heyl, heyn⟩, rfl⟩ := hy
      obtain ⟨hx1, hx2, hx3⟩ := timestamp_shape ex.dt_txt (hform ex hexl)
      obtain ⟨hy1, hy2, hy3⟩ := timestamp_shape ey.dt_txt (hform ey heyl)
      rw [hx1, decide_eq_true_eq] at hexn
      rw [hy1, decide_eq_true_eq] at heyn
      rw [hx2, hy2] at hxy
      rw [hx3, hy3, hxy, hexn, heyn]
    · exact (hdistinct.sublist
        ((List.filter_sublist list).map (fun e => e.dt_txt)))
  · intro d hd
    simp only [dailyForecasts, List.mem_map, List.mem_filter] at hd
    obtain ⟨e, ⟨hel, hen⟩, rfl⟩ := hd
    obtain ⟨h1, h2, _⟩ := timestamp_shape e.dt_txt (hform e hel)
    rw [h1, decide_eq_true_eq] at hen
    exact ⟨e, hel, hen, h2, rfl, rfl, rfl⟩
  · intro e hel htime
    obtain ⟨h1, h2, _⟩ := timestamp_shape e.dt_txt (hform e hel)
    rw [dailyForecasts_dates]
    simp only [List.mem_map, List.mem_filter]
    refine ⟨e.dt_txt, ⟨e, ⟨hel, ?_⟩, rfl⟩, h2⟩
    rw [h1, decide_eq_true_eq]
    exact htime

/-- Witness of C6: the fifteen-entry forecast of five days. -/
theorem dailyForecasts_one_per_day_witness :
    ((dailyForecasts forecast15).map (fun d => d.date)).Nodup ∧
    (∀ d ∈ dailyForecasts forecast15, ∃ e ∈ forecast15,
      timePart e.dt_txt = "12:00:00" ∧ d.date = datePart e.dt_txt ∧
      d.temp = mathRound e.main.temp ∧ d.icon = getWeatherIconType e.weather0.id ∧
      d.description = e.weather0.description) ∧
    (∀ e ∈ forecast15, timePart e.dt_txt = "12:00:00" →
      datePart e.dt_txt ∈ (dailyForecasts forecast15).map (fun d => d.date)) :=
  dailyForecasts_one_per_day forecast15 (by decide) (by decide)

/-- C7, counterexample: from a state displaying a weather summary, a search
with the empty city ends in the empty-input error while the summary is still
stored, so the state has a non-empty error and a non-null `weatherData`. -/
theorem empty_input_keeps_weatherData :
    ((searchWeather asciiEnv okNetwork (.str "")).finalState shown).error =
      "Please enter a city name" ∧
    ((searchWeather asciiEnv okNetwork (.str "")).finalState shown).error ≠ "" ∧
    ((searchWeather asciiEnv okNetwork (.str "")).finalState shown).weatherData =
      some (formattedData asciiEnv milanoCurrent (dailyForecasts forecast15)) ∧
    ((searchWeather asciiEnv okNetwork (.str "")).finalState shown).weatherData ≠ none := by
  rw [searchWeather_blank asciiEnv okNetwork "" (by decide)]
  refine ⟨rfl, by decide, rfl, ?_⟩
  simp [Run.finalState, Effect.apply, shown]

/-- C7, amended: a search that passes the empty-input guard and ends in a
non-ok status, a malformed JSON body (one on which `json()` rejects) or a
transport failure leaves `weatherData` null with a non-empty error, and after
a search that passes the guard the error is non-empty exactly when
`weatherData` is null; the empty-input guard only sets its error message and
leaves `weatherData` as it was. -/
theorem search_error_discards_weatherData (env : Env) (net : Network) (city : String)
    (s : State) :
    ((∀ c ∈ city.data, isTrimChar c = true) →
      ((searchWeather env net (.str city)).finalState s).error = "Please enter a city name" ∧
      ((searchWeather env net (.str city)).finalState s).weatherData = s.weatherData) ∧
    ((¬ ∀ c ∈ city.data, isTrimChar c = true) →
      (((searchWeather env net (.str city)).finalState s).error ≠ "" ↔
        ((searchWeather env net (.str city)).finalState s).weatherData = none) ∧
      (∀ msg, net.current = .rejected msg →
        ((searchWeather env net (.str city)).finalState s).weatherData = none ∧
        ((searchWeather env net (.str city)).finalState s).error ≠ "") ∧
      (∀ r msg, net.current = .resolved r → net.forecast = .rejected msg →
        ((searchWeather env net (.str city)).finalState s).weatherData = none ∧
        ((searchWeather env net (.str city)).finalState s).error ≠ "") ∧
      (∀ r r2, net.current = .resolved r → net.forecast = .resolved r2 → r.ok = false →
        ((searchWeather env net (.str city)).finalState s).weatherData = none ∧
        ((searchWeather env net (.str city)).finalState s).error ≠ "") ∧
      (∀ r r2 msg, net.current = .resolved r → net.forecast = .resolved r2 →
        (r.body = .syntaxError msg ∨ r2.body = .syntaxError msg) →
        ((searchWeather env net (.str city)).finalState s).weatherData = none ∧
        ((searchWeather env net (.str city)).finalState s).error ≠ "")) := by
  constructor
  · intro hblank
    rw [searchWeather_blank env net city hblank]
    exact ⟨rfl, rfl⟩
  · intro hnb
    have hcity := truthy_trim_of_not_blank city hnb
    have key : ∀ msg, (tryBlock env net city).2 = .error msg →
        ((searchWeather env net (.str city)).finalState s).weatherData = none ∧
        ((searchWeather env net (.str city)).finalState s).error ≠ "" := by
      intro msg hm
      have h := finalState_thrown env net city s msg hcity hm
      exact ⟨h.1, h.2.2⟩
    refine ⟨?_, ?_, ?_, ?_, ?_⟩
    · cases hres : (tryBlock env net city).2 with
      | error msg =>
        have h := key msg hres
        exact ⟨fun _ => h.1, fun _ => h.2⟩
      | ok data =>
        rw [finalState_search env net city s hcity, hres]
        simp
    · intro msg hcur
      exact key msg (by simp only [tryBlock, hcur])
    · intro r msg hcur hfc
      exact key msg (by simp only [tryBlock, hcur, hfc])
    · intro r r2 hcur hfc hok
      have hthrow : ∃ msg, normalize env r r2 = .error msg := by
        simp only [normalize, statusError_not_ok r hok]
        exact ⟨_, rfl⟩
      obtain ⟨msg, hmsg⟩ := hthrow
      exact key msg (by simp only [tryBlock, hcur, hfc, hmsg])
    · intro r r2 msg hcur hfc hbad
      obtain ⟨thrown, hthrown⟩ := normalize_syntaxError env r r2 msg hbad
      exact key thrown (by simp only [tryBlock, hcur, hfc, hthrown])

/-- Witness of C7 (amended): the empty city from a state showing a summary, and
the city Milano on a network whose first request fails in transport. -/
theorem search_error_discards_weatherData_witness :
    (((searchWeather asciiEnv okNetwork (.str "")).finalState shown).error =
        "Please enter a city name" ∧
      ((searchWeather asciiEnv okNetwork (.str "")).finalState shown).weatherData =
        shown.weatherData) ∧
    (((searchWeather asciiEnv offlineNetwork (.str "Milano")).finalState shown).weatherData
        = none ∧
      ((searchWeather asciiEnv offlineNetwork (.str "Milano")).finalState shown).error ≠ "") :=
  ⟨(search_error_discards_weatherData asciiEnv okNetwork "" shown).1 (by decide),
   ((search_error_discards_weatherData asciiEnv offlineNetwork "Milano" shown).2
      (by decide)).2.1 "Failed to fetch" rfl⟩

/-- C8, the code at the failing input: with Milano typed, a click on the
button calls `searchWeather` with the click event, the call throws before any
effect and the state is unchanged (no weather summary, no error message),
while Enter runs `searchWeather` on the city string and ends with a summary. -/
theorem click_runs_no_search :
    onClick asciiEnv okNetwork typedMilano =
      some { effects := [], rejected := some "city.trim is not a function" } ∧
    (searchWeather asciiEnv okNetwork .event).finalState typedMilano = typedMilano ∧
    ((searchWeather asciiEnv okNetwork .event).finalState typedMilano).weatherData = none ∧
    ((searchWeather asciiEnv okNetwork .event).finalState typedMilano).error = "" ∧
    onKeyPress asciiEnv okNetwork "Enter" typedMilano =
      some (searchWeather asciiEnv okNetwork (.str "Milano")) ∧
    ((searchWeather asciiEnv okNetwork (.str "Milano")).finalState typedMilano).weatherData =
      some (formattedData asciiEnv milanoCurrent (dailyForecasts forecast15)) := by
  refine ⟨rfl, rfl, rfl, rfl, rfl, ?_⟩
  exact finalState_success asciiEnv okNetwork "Milano" typedMilano
    { ok := true, status := 200, body := .wellShaped milanoCurrent }
    { ok := true, status := 200, body := .wellShaped forecast15 }
    milanoCurrent forecast15 (by decide) rfl rfl rfl rfl rfl

/-- C9: the normalised description is the upper-case mapping of the first
character of the provider's description followed by the remaining characters
unchanged; the empty description gives the empty string; a description whose
first character is its own upper-case mapping is returned unchanged. -/
theorem formattedData_description (env : Env) (w : RawCurrent) (fc : List DailyForecast) :
    (formattedData env w fc).description.data =
      (match w.weather0.description.data with
       | [] => []
       | c :: rest => env.upperChar c ++ rest) ∧
    (w.weather0.description = "" → (formattedData env w fc).description = "") ∧
    (∀ c rest, w.weather0.description.data = c :: rest → env.upperChar c = [c] →
      (formattedData env w fc).description = w.weather0.description) := by
  have hdata : (formattedData env w fc).description.data =
      (match w.weather0.description.data with
       | [] => []
       | c :: rest => env.upperChar c ++ rest) := by
    simp only [formattedData, capitalize, toUpperCase, charAt0, slice1, String.data_append]
    cases w.weather0.description.data with
    | nil => rfl
    | cons c rest => simp
  refine ⟨hdata, ?_, ?_⟩
  · intro h
    rw [String.ext_iff, hdata, h]
  · intro c rest hd hup
    rw [String.ext_iff, hdata, hd]
    simp [hup]

/-- Witness of C9: the Italian description "cielo sereno" under the ASCII
upper-case mapping, and the already capitalised "Cielo sereno". -/
theorem formattedData_description_witness :
    (formattedData asciiEnv milanoCurrent []).description = "Cielo sereno" ∧
    (formattedData asciiEnv
      { milanoCurrent with weather0 := { id := .fin 800, description := "Cielo sereno" } }
      []).description = "Cielo sereno" :=
  ⟨String.ext_iff.mpr ((formattedData_description asciiEnv milanoCurrent []).1.trans rfl),
   (formattedData_description asciiEnv
      { milanoCurrent with weather0 := { id := .fin 800, description := "Cielo sereno" } }
      []).2.2 'C' "ielo sereno".data rfl rfl⟩

/-- C10, counterexample: for the city Milano on a network whose
current-conditions request fails in transport, the only request sent is the
current-conditions one; the forecast request is never sent. -/
theorem forecast_request_waits_for_current :
    fetched (searchWeather asciiEnv offlineNetwork (.str "Milano")).effects =
      [weatherUrl asciiEnv "Milano"] ∧
    forecastUrl asciiEnv "Milano" ∉
      fetched (searchWeather asciiEnv offlineNetwork (.str "Milano")).effects := by
  decide

/-- C10, amended: for a city that passes the empty-input guard the two requests
are sent one after the other: the current-conditions request is always sent
first; the forecast request is sent only once the first has resolved, and not
at all when the first is rejected; the status check and the normalisation come
after both requests have settled, so a rejected forecast request decides the
outcome whatever the current-conditions status is. -/
theorem searchWeather_requests_sequential (env : Env) (net : Network) (city : String)
    (hcity : ¬ ∀ c ∈ city.data, isTrimChar c = true) :
    (∀ msg, net.current = .rejected msg →
      (searchWeather env net (.str city)).effects =
        [.setLoading true, .setError "", .fetch (weatherUrl env city)] ++
          settle (.error msg) ++ [.setLoading false] ∧
      fetched (searchWeather env net (.str city)).effects = [weatherUrl env city]) ∧
    (∀ r msg, net.current = .resolved r → net.forecast = .rejected msg →
      (searchWeather env net (.str city)).effects =
        [.setLoading true, .setError "", .fetch (weatherUrl env city),
          .fetch (forecastUrl env city)] ++ settle (.error msg) ++ [.setLoading false] ∧
      fetched (searchWeather env net (.str city)).effects =
        [weatherUrl env city, forecastUrl env city]) ∧
    (∀ r r2, net.current = .resolved r → net.forecast = .resolved r2 →
      (searchWeather env net (.str city)).effects =
        [.setLoading true, .setError "", .fetch (weatherUrl env city),
          .fetch (forecastUrl env city)] ++ settle (normalize env r r2) ++
          [.setLoading false] ∧
      fetched (searchWeather env net (.str city)).effects =
        [weatherUrl env city, forecastUrl env city]) := by
  have h := searchWeather_effects env net city (truthy_trim_of_not_blank city hcity)
  refine ⟨?_, ?_, ?_⟩
  · intro msg hcur
    rw [h]
    simp only [tryBlock, hcur]
    exact ⟨rfl, rfl⟩
  · intro r msg hcur hfc
    rw [h]
    simp only [tryBlock, hcur, hfc]
    exact ⟨rfl, rfl⟩
  · intro r r2 hcur hfc
    rw [h]
    simp only [tryBlock, hcur, hfc]
    refine ⟨rfl, ?_⟩
    cases normalize env r r2 with
    | ok data => rfl
    | error msg => rfl

/-- Witness of C10 (amended): the city Milano on the network that answers both
requests. -/
theorem searchWeather_requests_sequential_witness :
    fetched (searchWeather asciiEnv okNetwork (.str "Milano")).effects =
      [weatherUrl asciiEnv "Milano", forecastUrl asciiEnv "Milano"] :=
  ((searchWeather_requests_sequential asciiEnv okNetwork "Milano" (by decide)).2.2
    { ok := true, status := 200, body := .wellShaped milanoCurrent }
    { ok := true, status := 200, body := .wellShaped forecast15 } rfl rfl).2

end SearchBar
